import Mathlib

/-!
Shallow embedding of the read-through cache / data-access layer of the
nba_analysis repository, together with the entity method
NBATeam.get_last_matches of each module copy.

The repository holds four near-identical copies of the layer:
  * src/src/nba.py       (namespace SrcNba below)  — guards the fetch with
    an `is None` check on the loaded value;
  * src/data.py          (namespace DataPy below)  — guards the fetch with
    `if not loaded`, whose pandas semantics are modelled faithfully: `not None`
    is True, while `not df` on any DataFrame raises ValueError
    (pandas refuses to convert a DataFrame to bool);
  * src/prepare_data.py  (namespace PrepareData)   — an NBATeam facade over
    the src/data.py functions;
  * src/nba_analysis/nba.py (namespace AnalysisPkg) — no persistent cache at
    all; get_season always calls the remote adapter.

The persistent cache store (one parquet file per dataset key under DATA_DIR)
is modelled as an association list from filename to Table; `save_dataframe`
overwrites the entry for its filename and `get_dataframe` returns the entry
when the file exists and None (here: Option.none) otherwise.  The remote
fetch adapter is passed in as the value a zero-argument fetch closure would
produce: `Except PyErr Table`, an `.error` meaning the closure raises.  Each
cache-layer call returns a `CallOut`: the store after the call, the number of
times the fetch closure was invoked, and the Python result (a Table, or the
exception that propagated).
-/

namespace NbaAnalysis

/-- A scalar cell value of a tabular dataset (a pandas DataFrame cell). -/
inductive Val where
  | str (s : String)
  | num (n : Int)
  | boolean (b : Bool)
  | null
deriving DecidableEq

/-- A pandas DataFrame: ordered column names and rows aligned by position. -/
structure Table where
  cols : List String
  rows : List (List Val)
deriving DecidableEq

/-- Python exceptions the embedded layer can surface. -/
inductive PyErr where
  | valueError
  | keyError
  | fetchError (msg : String)
deriving DecidableEq

/-- The persistent cache store: filename to serialized Table, one entry per file. -/
abbrev Store := List (String × Table)

/-- Lookup of a filename in the store (does the file exist, and its content). -/
def lookupStore : Store → String → Option Table
  | [], _ => none
  | (k, t) :: rest, f => if k = f then some t else lookupStore rest f

/-- Overwriting update of the store at a filename (writing the parquet file). -/
def setEntry : Store → String → Table → Store
  | [], f, t => [(f, t)]
  | (k, t0) :: rest, f, t =>
      if k = f then (f, t) :: rest else (k, t0) :: setEntry rest f t

/-- get_dataframe (identical in src/data.py and src/src/nba.py): checks whether
the file of the dataframe exists and returns it, else returns None. -/
def get_dataframe (store : Store) (filename : String) : Option Table :=
  lookupStore store filename

/-- save_dataframe (identical in src/data.py and src/src/nba.py): stores a
dataframe in a parquet file, overwriting any existing file of that name. -/
def save_dataframe (store : Store) (dataframe : Table) (filename : String) : Store :=
  setEntry store filename dataframe

instance {ε α : Type} [DecidableEq ε] [DecidableEq α] : DecidableEq (Except ε α) :=
  fun a b =>
    match a, b with
    | .error e, .error f =>
        if h : e = f then .isTrue (by rw [h])
        else .isFalse (by intro hh; cases hh; exact h rfl)
    | .error _, .ok _ => .isFalse (by intro h; cases h)
    | .ok _, .error _ => .isFalse (by intro h; cases h)
    | .ok x, .ok y =>
        if h : x = y then .isTrue (by rw [h])
        else .isFalse (by intro hh; cases hh; exact h rfl)

/-- Result of one cache-layer call: the store afterwards, how many times the
fetch closure ran, and the returned Table or the propagated exception. -/
structure CallOut where
  store : Store
  fetchCalls : Nat
  out : Except PyErr Table
deriving DecidableEq

/-- The shared fetch-and-persist branch: invoke the fetch closure once; if it
raises, the exception propagates and nothing is written; otherwise the fetched
Table is saved under the filename and returned. -/
def fetch_and_save (store : Store) (filename : String) (fetch : Except PyErr Table) :
    CallOut :=
  match fetch with
  | .error e => ⟨store, 1, .error e⟩
  | .ok t => ⟨save_dataframe store t filename, 1, .ok t⟩

/-- The season dataset key, from the f-string of both get_season copies:
team id and season joined by an underscore, with the parquet extension. -/
def seasonFilename (team_id season : String) : String :=
  team_id ++ "_" ++ season ++ ".parquet"

theorem lookupStore_setEntry_self (s : Store) (f : String) (t : Table) :
    lookupStore (setEntry s f t) f = some t := by
  induction s with
  | nil => simp [setEntry, lookupStore]
  | cons p rest ih =>
      obtain ⟨k, t0⟩ := p
      by_cases h : k = f
      · simp [setEntry, lookupStore, h]
      · simp [setEntry, lookupStore, h, ih]

theorem lookupStore_setEntry_ne (s : Store) (f k : String) (t : Table)
    (h : f ≠ k) : lookupStore (setEntry s f t) k = lookupStore s k := by
  induction s with
  | nil => simp [setEntry, lookupStore, h]
  | cons p rest ih =>
      obtain ⟨k0, t0⟩ := p
      by_cases h0 : k0 = f
      · subst h0
        simp [setEntry, lookupStore, h]
      · simp [setEntry, lookupStore, h0, ih]

theorem setEntry_idem (s : Store) (f : String) (t : Table) :
    setEntry (setEntry s f t) f t = setEntry s f t := by
  induction s with
  | nil => simp [setEntry]
  | cons p rest ih =>
      obtain ⟨k, t0⟩ := p
      by_cases h : k = f
      · simp [setEntry, h]
      · simp [setEntry, h, ih]

/-- Python slicing semantics for a one-sided slice with a start index, as in
`df.iloc[s:]`: a negative start counts from the end and clamps at zero, a
nonnegative start clamps at the length. -/
def pySliceFrom {α : Type} (xs : List α) (s : Int) : List α :=
  let len : Int := xs.length
  let start : Int := if s < 0 then max (len + s) 0 else min s len
  xs.drop start.toNat

/-- Python slicing semantics for a one-sided slice with a stop index, as in
`df.iloc[:e]`: a negative stop counts from the end and clamps at zero, a
nonnegative stop clamps at the length. -/
def pySliceTo {α : Type} (xs : List α) (e : Int) : List α :=
  let len : Int := xs.length
  let stop : Int := if e < 0 then max (len + e) 0 else min e len
  xs.take stop.toNat

/-- Positional row slice `df.iloc[s:]`. -/
def iloc_from (t : Table) (s : Int) : Table :=
  ⟨t.cols, pySliceFrom t.rows s⟩

/-- Positional row slice `df.iloc[:e]`. -/
def iloc_to (t : Table) (e : Int) : Table :=
  ⟨t.cols, pySliceTo t.rows e⟩

/-- Python truthiness of a cell value, used for the boolean row mask of the
active-player filter. -/
def truthy : Val → Bool
  | .str s => s ≠ ""
  | .num n => n ≠ 0
  | .boolean b => b
  | .null => false

namespace SrcNba

/-- Module src/src/nba.py, function get_season: when invalidate is false the
cached entry is loaded and, being checked with `is None`, a present entry is
returned as is; a missing entry or an explicit invalidate reaches the
fetch-and-persist branch. -/
def get_season (store : Store) (team_id season : String) (invalidate : Bool)
    (fetch : Except PyErr Table) : CallOut :=
  let filename := seasonFilename team_id season
  if invalidate then
    fetch_and_save store filename fetch
  else
    match get_dataframe store filename with
    | some t => ⟨store, 0, .ok t⟩
    | none => fetch_and_save store filename fetch

/-- The in-memory active-player row filter of src/src/nba.py get_players:
`nba_players[nba_players["is_active"]]` keeps the rows whose cell in the
is_active column is truthy; a table without that column raises KeyError. -/
def filterActive (t : Table) : Except PyErr Table :=
  match t.cols.findIdx? (fun c => c == "is_active") with
  | none => .error .keyError
  | some i => .ok ⟨t.cols, t.rows.filter (fun row => truthy ((row.get? i).getD .null))⟩

/-- Module src/src/nba.py, function get_players: load the players artifact
(fetching and persisting it when the file is missing, per the `is None`
check), then, when is_active is requested, apply the row filter in memory to
the loaded value only. -/
def get_players (store : Store) (is_active : Bool) (fetch : Except PyErr Table) :
    CallOut :=
  let r : CallOut :=
    match get_dataframe store "nba_players.parquet" with
    | some t => ⟨store, 0, .ok t⟩
    | none => fetch_and_save store "nba_players.parquet" fetch
  match r.out with
  | .error e => ⟨r.store, r.fetchCalls, .error e⟩
  | .ok t =>
      if is_active then
        match filterActive t with
        | .error e => ⟨r.store, r.fetchCalls, .error e⟩
        | .ok t2 => ⟨r.store, r.fetchCalls, .ok t2⟩
      else ⟨r.store, r.fetchCalls, .ok t⟩

/-- Module src/src/nba.py, method NBATeam.get_last_matches: calls
self.get_season with invalidate set to True for the current season ("2019-20",
substituted for the None default), then slices the LEADING rows with
`.iloc[:last_n_games]`. -/
def get_last_matches (store : Store) (team_id : String) (last_n_games : Int)
    (fetch : Except PyErr Table) : CallOut :=
  let r := get_season store team_id "2019-20" true fetch
  match r.out with
  | .error e => ⟨r.store, r.fetchCalls, .error e⟩
  | .ok t => ⟨r.store, r.fetchCalls, .ok (iloc_to t last_n_games)⟩

end SrcNba

namespace DataPy

/-- Module src/data.py, function get_teams.  The source guards the fetch with
`if not nba_teams:` on the loaded value.  On a missing file get_dataframe
returns None and `not None` is True, so the fetch branch runs; on any present
file the loaded value is a DataFrame and `not nba_teams` raises ValueError
(pandas refuses to convert a DataFrame to bool), so a cache hit raises before
either branch is taken. -/
def get_teams (store : Store) (fetch : Except PyErr Table) : CallOut :=
  match get_dataframe store "nba_teams.parquet" with
  | none => fetch_and_save store "nba_teams.parquet" fetch
  | some _ => ⟨store, 0, .error .valueError⟩

/-- Module src/data.py, function get_players: same `if not nba_players:` guard
as get_teams (and no is_active parameter in this copy), with the same pandas
truthiness semantics: missing file fetches and persists, present file raises
ValueError. -/
def get_players (store : Store) (fetch : Except PyErr Table) : CallOut :=
  match get_dataframe store "nba_players.parquet" with
  | none => fetch_and_save store "nba_players.parquet" fetch
  | some _ => ⟨store, 0, .error .valueError⟩

/-- Module src/data.py, function get_season: with invalidate the fetch branch
runs directly; otherwise the cached entry is loaded and checked with
`if not team_season:`, so a missing entry fetches (invalidate is set) while a
present entry raises ValueError from the DataFrame truthiness test. -/
def get_season (store : Store) (team_id season : String) (invalidate : Bool)
    (fetch : Except PyErr Table) : CallOut :=
  let filename := seasonFilename team_id season
  if invalidate then
    fetch_and_save store filename fetch
  else
    match get_dataframe store filename with
    | none => fetch_and_save store filename fetch
    | some _ => ⟨store, 0, .error .valueError⟩

/-- Module src/data.py, method NBATeam.get_last_matches: calls self.get_season
with invalidate set to True for the current season ("2019-20", the default),
then slices the TRAILING rows with `.iloc[-last_n_games:]`. -/
def get_last_matches (store : Store) (team_id : String) (last_n_games : Int)
    (fetch : Except PyErr Table) : CallOut :=
  let r := get_season store team_id "2019-20" true fetch
  match r.out with
  | .error e => ⟨r.store, r.fetchCalls, .error e⟩
  | .ok t => ⟨r.store, r.fetchCalls, .ok (iloc_from t (-last_n_games))⟩

end DataPy

namespace PrepareData

/-- Module src/prepare_data.py, method NBATeam.get_last_matches: calls
self.get_season("2019-20", True), which delegates to data.get_season, then
slices the TRAILING rows with `.iloc[-last_n_games:]`. -/
def get_last_matches (store : Store) (team_id : String) (last_n_games : Int)
    (fetch : Except PyErr Table) : CallOut :=
  let r := DataPy.get_season store team_id "2019-20" true fetch
  match r.out with
  | .error e => ⟨r.store, r.fetchCalls, .error e⟩
  | .ok t => ⟨r.store, r.fetchCalls, .ok (iloc_from t (-last_n_games))⟩

end PrepareData

namespace AnalysisPkg

/-- Python truthiness of the optional integer last_n_games argument, guarding
the slice in src/nba_analysis/nba.py: None and 0 are falsy. -/
def truthyIntOpt : Option Int → Bool
  | none => false
  | some n => n ≠ 0

/-- Module src/nba_analysis/nba.py, method NBATeam.get_last_matches: this copy
has no persistent cache, so the season log always comes from the remote
adapter; when last_n_games is truthy the LEADING rows are kept with
`.iloc[:last_n_games]`, else the whole log is returned. -/
def get_last_matches (last_n_games : Option Int) (fetch : Except PyErr Table) :
    Except PyErr Table :=
  match fetch with
  | .error e => .error e
  | .ok season =>
      if truthyIntOpt last_n_games then .ok (iloc_to season (last_n_games.getD 0))
      else .ok season

end AnalysisPkg

/-- Spec-side definition, from the words of the specification: the trailing N
rows (the final N rows) of a season log. -/
def trailingRows (n : Nat) (t : Table) : Table :=
  ⟨t.cols, t.rows.drop (t.rows.length - n)⟩

/-- Spec-side definition, from the words of the specification: the leading N
rows (the first N rows) of a season log. -/
def leadingRows (n : Nat) (t : Table) : Table :=
  ⟨t.cols, t.rows.take n⟩

/-- The store after running a sequence of save_dataframe calls, filename paired
with its table, starting from the empty store. -/
def applySaves (saves : List (String × Table)) : Store :=
  saves.foldl (fun s p => save_dataframe s p.2 p.1) []

/-- A two-row sample game log used in concrete evaluations. -/
def sampleLog : Table :=
  ⟨["PTS"], [[.num 1], [.num 2]]⟩

/-- A one-row sample table used in concrete evaluations. -/
def sampleTable : Table :=
  ⟨["PTS"], [[.num 9]]⟩

/-- A present-but-empty cached table: the columns exist, the rows are empty. -/
def emptyTable : Table :=
  ⟨["abbreviation"], []⟩

theorem lookupStore_applySaves_aux (saves : List (String × Table)) (s : Store)
    (k : String) (h : ∀ p ∈ saves, p.1 ≠ k) (h0 : lookupStore s k = none) :
    lookupStore (saves.foldl (fun acc p => save_dataframe acc p.2 p.1) s) k = none := by
  induction saves generalizing s with
  | nil => simpa using h0
  | cons p rest ih =>
      simp only [List.foldl_cons]
      apply ih
      · intro q hq
        exact h q (List.mem_cons_of_mem p hq)
      · rw [save_dataframe, lookupStore_setEntry_ne _ _ _ _ (h p (List.mem_cons_self p rest))]
        exact h0

/-- Claim C1: the claim states that with invalidate false and a cache entry
present, get_season returns the cached Table with no fetch and no write, in
both cited copies.  The src/data.py copy violates this: its guard
`if not team_season:` raises ValueError on any loaded DataFrame, so a call
that hits the cache raises instead of returning the cached Table.  This
theorem evaluates that copy at the failing input: a store holding an entry
for the requested key, invalidate false. -/
theorem claim_C1_data_hit_raises :
    DataPy.get_season [(seasonFilename "1610612738" "2019-20", sampleLog)]
        "1610612738" "2019-20" false (.ok sampleTable)
      = ⟨[(seasonFilename "1610612738" "2019-20", sampleLog)], 0, .error .valueError⟩ ∧
    DataPy.get_season [(seasonFilename "1610612738" "2019-20", sampleLog)]
        "1610612738" "2019-20" false (.ok sampleTable)
      ≠ ⟨[(seasonFilename "1610612738" "2019-20", sampleLog)], 0, .ok sampleLog⟩ := by
  decide

/-- Claim C2: whenever invalidate is true or no cache entry for the key is
found, both get_season copies invoke the fetch closure exactly once, persist
the fetched Table under the key (the saved entry is then the lookup result,
overwriting whatever was there), and return the fetched Table. -/
theorem claim_C2_fetch_branch (store : Store) (team_id season : String)
    (invalidate : Bool) (t : Table)
    (h : invalidate = true ∨ get_dataframe store (seasonFilename team_id season) = none) :
    SrcNba.get_season store team_id season invalidate (.ok t)
        = ⟨save_dataframe store t (seasonFilename team_id season), 1, .ok t⟩ ∧
    DataPy.get_season store team_id season invalidate (.ok t)
        = ⟨save_dataframe store t (seasonFilename team_id season), 1, .ok t⟩ ∧
    get_dataframe (save_dataframe store t (seasonFilename team_id season))
        (seasonFilename team_id season) = some t := by
  refine ⟨?_, ?_, lookupStore_setEntry_self store (seasonFilename team_id season) t⟩ <;>
  · rcases h with h | h
    · subst h
      simp [SrcNba.get_season, DataPy.get_season, fetch_and_save]
    · cases invalidate
      · simp [SrcNba.get_season, DataPy.get_season, fetch_and_save, h]
      · simp [SrcNba.get_season, DataPy.get_season, fetch_and_save]

theorem claim_C2_fetch_branch_witness :
    SrcNba.get_season [] "BOS" "2019-20" false (.ok sampleLog)
        = ⟨save_dataframe [] sampleLog (seasonFilename "BOS" "2019-20"), 1, .ok sampleLog⟩ ∧
    DataPy.get_season [] "BOS" "2019-20" false (.ok sampleLog)
        = ⟨save_dataframe [] sampleLog (seasonFilename "BOS" "2019-20"), 1, .ok sampleLog⟩ ∧
    get_dataframe (save_dataframe [] sampleLog (seasonFilename "BOS" "2019-20"))
        (seasonFilename "BOS" "2019-20") = some sampleLog :=
  claim_C2_fetch_branch [] "BOS" "2019-20" false sampleLog (Or.inr (by decide))

/-- Claim C3: when the call reaches the fetch branch (invalidate, or no cache
entry) and the fetch closure raises, get_season of src/src/nba.py propagates
the error unchanged, invokes the closure exactly once (no retry), and leaves
the store exactly as it was: no entry created, overwritten or partially
written. -/
theorem claim_C3_fetch_error_propagates (store : Store) (team_id season : String)
    (invalidate : Bool) (e : PyErr)
    (h : invalidate = true ∨ get_dataframe store (seasonFilename team_id season) = none) :
    SrcNba.get_season store team_id season invalidate (.error e)
      = ⟨store, 1, .error e⟩ := by
  rcases h with h | h
  · subst h
    simp [SrcNba.get_season, fetch_and_save]
  · cases invalidate <;> simp [SrcNba.get_season, fetch_and_save, h]

theorem claim_C3_fetch_error_propagates_witness :
    SrcNba.get_season [] "BOS" "2019-20" false (.error (.fetchError "timeout"))
      = ⟨[], 1, .error (.fetchError "timeout")⟩ :=
  claim_C3_fetch_error_propagates [] "BOS" "2019-20" false (.fetchError "timeout")
    (Or.inr (by decide))

/-- Claim C4: for every store, key and Table, save_dataframe followed by
get_dataframe at the same key returns exactly the saved Table (round-trip
fidelity of the serialized artifact: same columns, same rows in order). -/
theorem claim_C4_roundtrip (store : Store) (filename : String) (t : Table) :
    get_dataframe (save_dataframe store t filename) filename = some t :=
  lookupStore_setEntry_self store filename t

/-- Claim C5: repeated invalidate calls whose fetch closure returns the same
Table leave the store in the same state as a single call, for both get_season
copies (saving the same entry twice is idempotent on the store). -/
theorem claim_C5_invalidate_idempotent (store : Store) (team_id season : String)
    (t : Table) :
    (SrcNba.get_season ((SrcNba.get_season store team_id season true (.ok t)).store)
        team_id season true (.ok t)).store
      = (SrcNba.get_season store team_id season true (.ok t)).store ∧
    (DataPy.get_season ((DataPy.get_season store team_id season true (.ok t)).store)
        team_id season true (.ok t)).store
      = (DataPy.get_season store team_id season true (.ok t)).store := by
  constructor <;>
    simp [SrcNba.get_season, DataPy.get_season, fetch_and_save, save_dataframe,
      setEntry_idem]

/-- Claim C6: a direct store load for a key that was never saved (the store is
the result of any sequence of saves to other keys, starting empty) returns
None: not an error and not an empty Table. -/
theorem claim_C6_missing_key (saves : List (String × Table)) (k : String)
    (h : ∀ p ∈ saves, p.1 ≠ k) :
    get_dataframe (applySaves saves) k = none :=
  lookupStore_applySaves_aux saves [] k h rfl

theorem claim_C6_missing_key_witness :
    get_dataframe (applySaves [("nba_teams.parquet", sampleTable)])
      "nba_players.parquet" = none :=
  claim_C6_missing_key [("nba_teams.parquet", sampleTable)] "nba_players.parquet"
    (by decide)

/-- Claim C7 counterexample: the claim states that every module copy of
NBATeam.get_last_matches returns the TRAILING N rows of the season log as
returned by the adapter.  The src/src/nba.py copy slices with
`.iloc[:last_n_games]` and thus returns the LEADING rows: on a two-row log
and N equal to 1 its result is not the trailing row. -/
theorem claim_C7_counterexample :
    (SrcNba.get_last_matches [] "1610612738" 1 (.ok sampleLog)).out
      ≠ .ok (trailingRows 1 sampleLog) := by
  decide

/-- Claim C7 as amended: for every positive N, the src/data.py and
src/prepare_data.py copies of get_last_matches return the trailing N rows of
the season log returned by the adapter (slice `.iloc[-N:]`), while the
src/src/nba.py and src/nba_analysis/nba.py copies return the leading N rows
(slice `.iloc[:N]`). -/
theorem claim_C7_slicing (store : Store) (team_id : String) (n : Nat) (t : Table)
    (hn : 0 < n) :
    (DataPy.get_last_matches store team_id (n : Int) (.ok t)).out
        = .ok (trailingRows n t) ∧
    (PrepareData.get_last_matches store team_id (n : Int) (.ok t)).out
        = .ok (trailingRows n t) ∧
    (SrcNba.get_last_matches store team_id (n : Int) (.ok t)).out
        = .ok (leadingRows n t) ∧
    AnalysisPkg.get_last_matches (some (n : Int)) (.ok t)
        = .ok (leadingRows n t) := by
  have hfrom : pySliceFrom t.rows (-(n : Int)) = t.rows.drop (t.rows.length - n) := by
    simp only [pySliceFrom]
    have hneg : (-(n : Int)) < 0 := by omega
    rw [if_pos hneg]
    congr 1
    omega
  have hto : pySliceTo t.rows (n : Int) = t.rows.take n := by
    simp only [pySliceTo]
    have hpos : ¬ ((n : Int) < 0) := by omega
    rw [if_neg hpos]
    have hmin : (min (n : Int) (t.rows.length : Int)).toNat = min n t.rows.length := by
      omega
    rw [hmin]
    exact List.take_eq_take.mpr (by omega)
  have hne : (n : Int) ≠ 0 := by omega
  refine ⟨?_, ?_, ?_, ?_⟩
  · simp [DataPy.get_last_matches, DataPy.get_season, fetch_and_save, iloc_from,
      trailingRows, hfrom]
  · simp [PrepareData.get_last_matches, DataPy.get_season, fetch_and_save, iloc_from,
      trailingRows, hfrom]
  · simp [SrcNba.get_last_matches, SrcNba.get_season, fetch_and_save, iloc_to,
      leadingRows, hto]
  · simp [AnalysisPkg.get_last_matches, AnalysisPkg.truthyIntOpt, hne, iloc_to,
      leadingRows, hto]

theorem claim_C7_slicing_witness :
    (DataPy.get_last_matches [] "1610612738" ((1 : Nat) : Int) (.ok sampleLog)).out
        = .ok (trailingRows 1 sampleLog) ∧
    (PrepareData.get_last_matches [] "1610612738" ((1 : Nat) : Int) (.ok sampleLog)).out
        = .ok (trailingRows 1 sampleLog) ∧
    (SrcNba.get_last_matches [] "1610612738" ((1 : Nat) : Int) (.ok sampleLog)).out
        = .ok (leadingRows 1 sampleLog) ∧
    AnalysisPkg.get_last_matches (some ((1 : Nat) : Int)) (.ok sampleLog)
        = .ok (leadingRows 1 sampleLog) :=
  claim_C7_slicing [] "1610612738" 1 sampleLog (by decide)

/-- Claim C8: in src/src/nba.py get_players, the active-only filter is an
in-memory operation applied after the load: the store and the fetch count
after a call with is_active true equal those of the same call with is_active
false, the is_active result is exactly the unfiltered result passed through
filterActive, and the store after any call holds the unfiltered table — the
fetched table itself on a miss, the untouched store on a hit or a fetch
error. -/
theorem claim_C8_filter_in_memory (store : Store) (fetch : Except PyErr Table) :
    (SrcNba.get_players store true fetch).store
        = (SrcNba.get_players store false fetch).store ∧
    (SrcNba.get_players store true fetch).fetchCalls
        = (SrcNba.get_players store false fetch).fetchCalls ∧
    (SrcNba.get_players store true fetch).out
        = (SrcNba.get_players store false fetch).out.bind SrcNba.filterActive ∧
    (SrcNba.get_players store false fetch).store
        = (match get_dataframe store "nba_players.parquet", fetch with
           | some _, _ => store
           | none, .ok t => save_dataframe store t "nba_players.parquet"
           | none, .error _ => store) := by
  rcases hl : get_dataframe store "nba_players.parquet" with _ | t0 <;>
    rcases fetch with e | tf
  · simp [SrcNba.get_players, fetch_and_save, hl, Except.bind]
  · rcases hf : SrcNba.filterActive tf with e2 | t2 <;>
      simp [SrcNba.get_players, fetch_and_save, hl, Except.bind, hf]
  · rcases hf : SrcNba.filterActive t0 with e2 | t2 <;>
      simp [SrcNba.get_players, fetch_and_save, hl, Except.bind, hf]
  · rcases hf : SrcNba.filterActive t0 with e2 | t2 <;>
      simp [SrcNba.get_players, fetch_and_save, hl, Except.bind, hf]

/-- Claim C9 counterexample: the claim states that in src/data.py an
empty-but-present cached Table is treated as a cache miss (fetch then
overwrite) and that the truthiness test on a loaded Table cannot itself
error.  In pandas the truthiness of a DataFrame — empty or not — raises
ValueError, so with an empty table on disk get_teams raises, performs no
fetch, and leaves the store untouched, instead of the claimed
fetch-and-overwrite outcome. -/
theorem claim_C9_counterexample :
    DataPy.get_teams [("nba_teams.parquet", emptyTable)] (.ok sampleTable)
        = ⟨[("nba_teams.parquet", emptyTable)], 0, .error .valueError⟩ ∧
    DataPy.get_teams [("nba_teams.parquet", emptyTable)] (.ok sampleTable)
        ≠ ⟨[("nba_teams.parquet", sampleTable)], 1, .ok sampleTable⟩ := by
  decide

/-- Claim C9 as amended: in src/data.py, ANY present cache entry — empty or
not — makes the truthiness guard raise ValueError: get_teams, get_players and
get_season (with invalidate false) then neither fetch nor overwrite nor
return the cached Table; the call errors with the store unchanged and the
fetch closure never invoked. -/
theorem claim_C9_hit_raises (store : Store) (fetch : Except PyErr Table)
    (team_id season : String) :
    (∀ t0, get_dataframe store "nba_teams.parquet" = some t0 →
        DataPy.get_teams store fetch = ⟨store, 0, .error .valueError⟩) ∧
    (∀ t0, get_dataframe store "nba_players.parquet" = some t0 →
        DataPy.get_players store fetch = ⟨store, 0, .error .valueError⟩) ∧
    (∀ t0, get_dataframe store (seasonFilename team_id season) = some t0 →
        DataPy.get_season store team_id season false fetch
          = ⟨store, 0, .error .valueError⟩) := by
  refine ⟨?_, ?_, ?_⟩ <;> intro t0 h <;>
    simp [DataPy.get_teams, DataPy.get_players, DataPy.get_season, h]

/-- The store of the C9 witness: all three dataset keys present, each holding
an empty table. -/
def c9Store : Store :=
  [("nba_teams.parquet", emptyTable), ("nba_players.parquet", emptyTable),
   (seasonFilename "1610612738" "2019-20", emptyTable)]

theorem claim_C9_hit_raises_witness :
    DataPy.get_teams c9Store (.ok sampleTable) = ⟨c9Store, 0, .error .valueError⟩ ∧
    DataPy.get_players c9Store (.ok sampleTable) = ⟨c9Store, 0, .error .valueError⟩ ∧
    DataPy.get_season c9Store "1610612738" "2019-20" false (.ok sampleTable)
      = ⟨c9Store, 0, .error .valueError⟩ :=
  ⟨(claim_C9_hit_raises c9Store (.ok sampleTable) "1610612738" "2019-20").1
      emptyTable (by decide),
   (claim_C9_hit_raises c9Store (.ok sampleTable) "1610612738" "2019-20").2.1
      emptyTable (by decide),
   (claim_C9_hit_raises c9Store (.ok sampleTable) "1610612738" "2019-20").2.2
      emptyTable (by decide)⟩

/-- Claim C10: the src/data.py and src/prepare_data.py copies of
NBATeam.get_last_matches always call get_season with invalidate true for the
current season, so every call — for EVERY starting store, hence also one that
already holds an entry for the key — invokes the fetch closure exactly once,
overwrites the stored entry for the current season with the fetched table,
and returns a slice of the fetched (never the previously cached) table; when
the fetch raises, the error propagates and the closure was still invoked. -/
theorem claim_C10_always_invalidate (store : Store) (team_id : String) (n : Int)
    (t : Table) (e : PyErr) :
    DataPy.get_last_matches store team_id n (.ok t)
        = ⟨save_dataframe store t (seasonFilename team_id "2019-20"), 1,
            .ok (iloc_from t (-n))⟩ ∧
    PrepareData.get_last_matches store team_id n (.ok t)
        = ⟨save_dataframe store t (seasonFilename team_id "2019-20"), 1,
            .ok (iloc_from t (-n))⟩ ∧
    DataPy.get_last_matches store team_id n (.error e) = ⟨store, 1, .error e⟩ ∧
    PrepareData.get_last_matches store team_id n (.error e) = ⟨store, 1, .error e⟩ := by
  refine ⟨?_, ?_, ?_, ?_⟩ <;>
    simp [DataPy.get_last_matches, PrepareData.get_last_matches, DataPy.get_season,
      fetch_and_save]

end NbaAnalysis
